import Mathlib

/-!
Verification of the pairwise drug-interaction matcher of the
AI-Prescription-Verifier repository (component `DrugInteractionAnalyzer`).

The component keeps two pieces of state, a list of drug entries and the
list of findings from the last analysis.  `analyzeInteractions` scans all
index pairs (i, j) with i < j of the entry list with two nested `for`
loops, lowercases both names, looks the pair up in the static table
`mockInteractions` with `Array.prototype.find` using the test
`mock.drugs.includes(drug1) && mock.drugs.includes(drug2)`, and pushes a
finding that carries the two entries' stored names verbatim together with
the matched rule's severity, description and recommendation.
-/

namespace PrescriptionVerifier

/-- A user-entered drug entry (`interface Drug` in the source). -/
structure Drug where
  id : String
  name : String
  dosage : String
  frequency : String
deriving DecidableEq, Repr

/-- The four severity literals of the source (`'low' | 'moderate' | 'high' | 'severe'`). -/
inductive Severity where
  | low
  | moderate
  | high
  | severe
deriving DecidableEq, Repr

/-- One record of the static rule table `mockInteractions`:
a list of drug names plus severity, description and recommendation. -/
structure InteractionRule where
  drugs : List String
  severity : Severity
  description : String
  recommendation : String
deriving DecidableEq, Repr

/-- An emitted finding (`interface Interaction` in the source). -/
structure Interaction where
  drug1 : String
  drug2 : String
  severity : Severity
  description : String
  recommendation : String
deriving DecidableEq, Repr

/-- The hardcoded rule table of the source (`mockInteractions`). -/
def mockInteractions : List InteractionRule :=
  [ { drugs := ["warfarin", "aspirin"],
      severity := Severity.high,
      description := "Increased risk of bleeding when used together",
      recommendation := "Monitor INR levels closely and consider alternative anticoagulation" },
    { drugs := ["lisinopril", "potassium"],
      severity := Severity.moderate,
      description := "May cause hyperkalemia (elevated potassium levels)",
      recommendation := "Monitor serum potassium levels regularly" },
    { drugs := ["metformin", "iodine"],
      severity := Severity.moderate,
      description := "Contrast agents may increase risk of lactic acidosis",
      recommendation := "Temporarily discontinue metformin before procedures with contrast" } ]

/-- JavaScript's `String.prototype.toLowerCase()` as used by the source:
every character lowercased (identical to `String.toLower`, stated as a
structural map over the character list). -/
def toLowerCase (s : String) : String := ⟨s.data.map Char.toLower⟩

/-- Out-of-range placeholder for positional access; the matcher only reads
indices below the list length, so it never surfaces in the results. -/
def defaultDrug : Drug := { id := "", name := "", dosage := "", frequency := "" }

/-- Name of the entry at position `i` of the entry list. -/
def nameAt (drugs : List Drug) (i : Nat) : String :=
  (drugs.getD i defaultDrug).name

/-- The lookup of the source:
`mockInteractions.find(mock => mock.drugs.includes(drug1) && mock.drugs.includes(drug2))`,
generalized over the table. -/
def findRule (rules : List InteractionRule) (drug1 drug2 : String) : Option InteractionRule :=
  rules.find? fun mock => mock.drugs.contains drug1 && mock.drugs.contains drug2

/-- The body of the nested loops for one index pair (i, j): lowercase both
names, look them up, and if a rule is found build the finding that is pushed
onto `foundInteractions` (names taken verbatim from the entries, the other
fields from the rule). -/
def pairFinding (rules : List InteractionRule) (drugs : List Drug) (i j : Nat) :
    Option Interaction :=
  let di := drugs.getD i defaultDrug
  let dj := drugs.getD j defaultDrug
  let drug1 := toLowerCase di.name
  let drug2 := toLowerCase dj.name
  match findRule rules drug1 drug2 with
  | some interaction =>
      some { drug1 := di.name, drug2 := dj.name,
             severity := interaction.severity,
             description := interaction.description,
             recommendation := interaction.recommendation }
  | none => none

/-- The iteration order of the two nested loops
`for (i = 0; i < n; i++) for (j = i + 1; j < n; j++)`:
all pairs (i, j) with i < j < n, outer index ascending, inner index
ascending. -/
def canonicalPairs (n : Nat) : List (Nat × Nat) :=
  (List.range n).flatMap fun i =>
    ((List.range n).filter fun j => i < j).map fun j => (i, j)

/-- The pair scan of `analyzeInteractions`, generalized over the rule table:
traverse the pairs in loop order and collect the finding, if any, of each. -/
def analyzeWith (rules : List InteractionRule) (drugs : List Drug) : List Interaction :=
  (canonicalPairs drugs.length).filterMap fun p => pairFinding rules drugs p.1 p.2

/-- The matcher of the source, over its actual table `mockInteractions`. -/
def analyzeInteractions (drugs : List Drug) : List Interaction :=
  analyzeWith mockInteractions drugs

/-- Modelled from the spec: the matching test the spec describes, namely
that a rule's drug pair "is exactly the unordered set \x7bA,B\x7d" of the two
case-folded names.  Stated as two-sided set inclusion between `r.drugs` and
the pair.  Written for comparison with the source's membership test; the
source itself only checks `includes` of each name. -/
def specExactPairMatch (r : InteractionRule) (d1 d2 : String) : Bool :=
  (r.drugs.all fun x => x == d1 || x == d2) &&
    (r.drugs.contains d1 && r.drugs.contains d2)

/-- Number of index pairs (i < j) whose case-folded name pair exactly
matches some rule's pair in the spec's sense (unordered-set equality). -/
def countSpecExactPairs (rules : List InteractionRule) (drugs : List Drug) : Nat :=
  ((canonicalPairs drugs.length).filter fun p =>
    rules.any fun r =>
      specExactPairMatch r (toLowerCase (nameAt drugs p.1))
        (toLowerCase (nameAt drugs p.2))).length

/-- Number of index pairs (i < j) that pass the source's membership test:
some rule's drug list contains both case-folded names. -/
def countMemberPairs (rules : List InteractionRule) (drugs : List Drug) : Nat :=
  ((canonicalPairs drugs.length).filter fun p =>
    rules.any fun r =>
      r.drugs.contains (toLowerCase (nameAt drugs p.1)) &&
        r.drugs.contains (toLowerCase (nameAt drugs p.2))).length

/-- The component state touched by the claims: the entry list and the
stored findings of the last analysis. -/
structure ComponentState where
  drugs : List Drug
  interactions : List Interaction
deriving DecidableEq, Repr

/-- A toast's variant: the source passes `variant: "destructive"` for
validation failures and interaction alerts, and omits it otherwise. -/
inductive ToastVariant where
  | standard
  | destructive
deriving DecidableEq, Repr

/-- A toast notification as raised by the component. -/
structure Toast where
  title : String
  description : String
  variant : ToastVariant
deriving DecidableEq, Repr

/-- The toast raised when fewer than two entries are present. -/
def insufficientDataToast : Toast :=
  { title := "Insufficient Data",
    description := "Please add at least 2 drugs to analyze interactions",
    variant := ToastVariant.destructive }

/-- The completion toast of an analysis run, as a function of the findings. -/
def analysisToast (found : List Interaction) : Toast :=
  if found.length = 0 then
    { title := "Analysis Complete",
      description := "No significant interactions detected between the entered medications",
      variant := ToastVariant.standard }
  else
    { title := "Interactions Found",
      description := toString found.length ++ " potential interaction(s) detected",
      variant := ToastVariant.destructive }

/-- One invocation of the source's `analyzeInteractions` handler on the
component state: fewer than two entries short-circuits with a validation
toast and leaves the state untouched; otherwise the pair scan runs and its
findings replace the stored ones. -/
def analyzeStep (s : ComponentState) : ComponentState × Toast :=
  if s.drugs.length < 2 then
    (s, insufficientDataToast)
  else
    let found := analyzeInteractions s.drugs
    ({ s with interactions := found }, analysisToast found)

/-- The source's `removeDrug`: filter out the entries with the given id and
reset the stored findings to the empty list. -/
def removeDrug (id : String) (s : ComponentState) : ComponentState :=
  { drugs := s.drugs.filter fun drug => drug.id != id,
    interactions := [] }

/-- The source's `addDrug` on a submitted form: an all-whitespace name is a
validation failure (`none`); otherwise the trimmed, lowercased name is
stored in a fresh entry appended to the list. -/
def addDrug (newId newName newDosage newFrequency : String) (s : ComponentState) :
    Option ComponentState :=
  if newName.trim = "" then none
  else some { s with
    drugs := s.drugs ++
      [{ id := newId, name := toLowerCase newName.trim,
         dosage := newDosage, frequency := newFrequency }] }

/-! Concrete entries used to exercise the matcher on the spec's examples. -/

/-- A warfarin entry as a user would add it. -/
def warfarinEntry : Drug := { id := "1", name := "warfarin", dosage := "5mg", frequency := "daily" }

/-- An aspirin entry as a user would add it. -/
def aspirinEntry : Drug := { id := "2", name := "aspirin", dosage := "100mg", frequency := "daily" }

/-- A lisinopril entry as a user would add it. -/
def lisinoprilEntry : Drug := { id := "3", name := "lisinopril", dosage := "10mg", frequency := "daily" }

/-- A metformin entry. -/
def metforminEntryA : Drug := { id := "4", name := "metformin", dosage := "500mg", frequency := "daily" }

/-- A second entry with the same drug name (duplicate name, fresh id). -/
def metforminEntryB : Drug := { id := "5", name := "metformin", dosage := "850mg", frequency := "daily" }

/-- A warfarin entry whose stored name carries mixed casing. -/
def warfarinMixedEntry : Drug :=
  { id := "1", name := "Warfarin", dosage := "5mg", frequency := "daily" }

/-- An aspirin entry whose stored name is all uppercase. -/
def aspirinUpperEntry : Drug :=
  { id := "2", name := "ASPIRIN", dosage := "100mg", frequency := "daily" }

/-- The finding the actual table produces for warfarin plus aspirin. -/
def warfarinAspirinFinding : Interaction :=
  { drug1 := "warfarin", drug2 := "aspirin", severity := Severity.high,
    description := "Increased risk of bleeding when used together",
    recommendation := "Monitor INR levels closely and consider alternative anticoagulation" }

/-- A rule without warfarin or aspirin, usable as a non-matching prefix of a table. -/
def lisinoprilPotassiumRule : InteractionRule :=
  { drugs := ["lisinopril", "potassium"],
    severity := Severity.moderate,
    description := "May cause hyperkalemia (elevated potassium levels)",
    recommendation := "Monitor serum potassium levels regularly" }

/-- The warfarin and aspirin rule of the actual table. -/
def warfarinAspirinRule : InteractionRule :=
  { drugs := ["warfarin", "aspirin"],
    severity := Severity.high,
    description := "Increased risk of bleeding when used together",
    recommendation := "Monitor INR levels closely and consider alternative anticoagulation" }

/-- A second, deviating rule for the same warfarin and aspirin pair, used to
show that the earliest rule of a table wins. -/
def warfarinAspirinRuleAlt : InteractionRule :=
  { drugs := ["warfarin", "aspirin"],
    severity := Severity.severe,
    description := "Alternate entry for the same pair",
    recommendation := "Alternate advice for the same pair" }

/-! ### Helper lemmas about the matcher -/

theorem length_filterMap_eq_length_filter {α β : Type} (f : α → Option β) (l : List α) :
    (l.filterMap f).length = (l.filter fun a => (f a).isSome).length := by
  induction l with
  | nil => rfl
  | cons a t ih =>
      cases h : f a <;>
        simp [List.filterMap_cons, List.filter_cons, h, ih]

theorem filterMap_eq_filter_isSome_filterMap {α β : Type} (f : α → Option β) (l : List α) :
    l.filterMap f = (l.filter fun a => (f a).isSome).filterMap f := by
  induction l with
  | nil => rfl
  | cons a t ih =>
      cases h : f a <;>
        simp [List.filterMap_cons, List.filter_cons, h, ih]

theorem pairFinding_eq (rules : List InteractionRule) (drugs : List Drug) (i j : Nat) :
    pairFinding rules drugs i j =
      match findRule rules (toLowerCase (nameAt drugs i)) (toLowerCase (nameAt drugs j)) with
      | some interaction =>
          some { drug1 := nameAt drugs i, drug2 := nameAt drugs j,
                 severity := interaction.severity,
                 description := interaction.description,
                 recommendation := interaction.recommendation }
      | none => none := rfl

theorem pairFinding_isSome_eq (rules : List InteractionRule) (drugs : List Drug) (i j : Nat) :
    (pairFinding rules drugs i j).isSome =
      (findRule rules (toLowerCase (nameAt drugs i)) (toLowerCase (nameAt drugs j))).isSome := by
  simp only [pairFinding, nameAt]
  cases findRule rules (toLowerCase (drugs.getD i defaultDrug).name)
      (toLowerCase (drugs.getD j defaultDrug).name) <;> rfl

theorem findRule_isSome_iff (rules : List InteractionRule) (d1 d2 : String) :
    (findRule rules d1 d2).isSome ↔
      ∃ r ∈ rules, r.drugs.contains d1 = true ∧ r.drugs.contains d2 = true := by
  simp [findRule, List.find?_isSome, Bool.and_eq_true]

theorem mem_canonicalPairs {n : Nat} {p : Nat × Nat} :
    p ∈ canonicalPairs n ↔ p.1 < p.2 ∧ p.2 < n := by
  obtain ⟨i, j⟩ := p
  simp only [canonicalPairs, List.mem_flatMap, List.mem_map, List.mem_filter,
    List.mem_range, decide_eq_true_eq, Prod.mk.injEq]
  constructor
  · rintro ⟨a, ha, b, ⟨hbn, hab⟩, rfl, rfl⟩
    exact ⟨hab, hbn⟩
  · rintro ⟨hij, hjn⟩
    exact ⟨i, Nat.lt_trans hij hjn, j, ⟨hjn, hij⟩, rfl, rfl⟩

/-- The nested loops enumerate the pairs in strictly increasing
lexicographic order of (outer index, inner index). -/
theorem canonicalPairs_pairwise (n : Nat) :
    (canonicalPairs n).Pairwise fun p q : Nat × Nat =>
      p.1 < q.1 ∨ (p.1 = q.1 ∧ p.2 < q.2) := by
  unfold canonicalPairs
  rw [List.pairwise_flatMap]
  constructor
  · intro i _
    rw [List.pairwise_map]
    refine List.Pairwise.imp ?_ ((List.pairwise_lt_range n).filter _)
    intro a b hab
    exact Or.inr ⟨rfl, hab⟩
  · refine List.Pairwise.imp ?_ (List.pairwise_lt_range n)
    intro a b hab x hx y hy
    simp only [List.mem_map, List.mem_filter] at hx hy
    obtain ⟨ja, _, rfl⟩ := hx
    obtain ⟨jb, _, rfl⟩ := hy
    exact Or.inl hab

theorem findRule_isSome_eq_any (rules : List InteractionRule) (d1 d2 : String) :
    (findRule rules d1 d2).isSome =
      rules.any fun r => r.drugs.contains d1 && r.drugs.contains d2 := by
  rw [Bool.eq_iff_iff, findRule_isSome_iff, List.any_eq_true]
  simp [Bool.and_eq_true]

/-! ### Claim C1 -/

/-- C1, counterexample to the claim as stated: no rule's drug pair equals
the unordered set of the two case-folded names of the duplicate entry list
[metformin, metformin] (and the table has no self-pair rule), yet the
matcher emits one finding rather than zero: the source tests membership of
each name with `includes`, so a duplicated name matches any rule that
merely contains it. -/
theorem analyze_selfPair_emits_finding :
    (mockInteractions.any fun r => specExactPairMatch r "metformin" "metformin") = false ∧
      (analyzeInteractions [metforminEntryA, metforminEntryB]).length = 1 := by
  exact ⟨by decide, by decide⟩

/-- C1, amended: a finding is emitted for a scanned position pair (i, j),
i < j < length, iff some rule's drug list contains both entries' case-folded
names (a membership test, not unordered-set equality; the two coincide only
when the two names differ and the rule's list is exactly the pair). -/
theorem analyze_emits_iff_member (drugs : List Drug) (i j : Nat)
    (hij : i < j) (hjn : j < drugs.length) :
    (i, j) ∈ canonicalPairs drugs.length ∧
      ((pairFinding mockInteractions drugs i j).isSome ↔
        ∃ r ∈ mockInteractions,
          r.drugs.contains (toLowerCase (nameAt drugs i)) = true ∧
            r.drugs.contains (toLowerCase (nameAt drugs j)) = true) := by
  refine ⟨mem_canonicalPairs.mpr ⟨hij, hjn⟩, ?_⟩
  rw [pairFinding_isSome_eq, findRule_isSome_iff]

/-- C1, witness: the amended characterization applied to the duplicate
metformin list at position pair (0, 1). -/
theorem analyze_emits_iff_member_witness :
    (0 : Nat) < 1 ∧ [metforminEntryA, metforminEntryB].length = 2 ∧
      ((0, 1) ∈ canonicalPairs 2 ∧
        ((pairFinding mockInteractions [metforminEntryA, metforminEntryB] 0 1).isSome ↔
          ∃ r ∈ mockInteractions,
            r.drugs.contains (toLowerCase (nameAt [metforminEntryA, metforminEntryB] 0)) = true ∧
              r.drugs.contains (toLowerCase (nameAt [metforminEntryA, metforminEntryB] 1)) = true)) :=
  ⟨by decide, by decide,
    analyze_emits_iff_member [metforminEntryA, metforminEntryB] 0 1 (by decide) (by decide)⟩

/-! ### Claim C2 -/

/-- C2: over the actual table, [warfarin, aspirin] yields exactly the one
high-severity warfarin/aspirin finding; [warfarin, aspirin, lisinopril]
yields exactly that same single finding, and no finding involves
lisinopril, since potassium is absent from the input. -/
theorem analyze_actual_table_examples :
    analyzeInteractions [warfarinEntry, aspirinEntry] = [warfarinAspirinFinding] ∧
      warfarinAspirinFinding.severity = Severity.high ∧
      analyzeInteractions [warfarinEntry, aspirinEntry, lisinoprilEntry] =
        [warfarinAspirinFinding] ∧
      ((analyzeInteractions [warfarinEntry, aspirinEntry, lisinoprilEntry]).all fun f =>
        !(f.drug1 == "lisinopril") && !(f.drug2 == "lisinopril")) = true := by
  exact ⟨by decide, by decide, by decide, by decide⟩

/-! ### Claim C3 -/

/-- C3, counterexample to the claim as stated: the duplicate list
[metformin, metformin] has two entries, zero index pairs whose case-folded
name pair exactly matches some rule's pair (in the unordered-set sense the
claim uses), yet the matcher's result has length one, not zero. -/
theorem analyze_length_not_exact_count :
    [metforminEntryA, metforminEntryB].length = 2 ∧
      countSpecExactPairs mockInteractions [metforminEntryA, metforminEntryB] = 0 ∧
      (analyzeInteractions [metforminEntryA, metforminEntryB]).length = 1 := by
  exact ⟨by decide, by decide, by decide⟩

/-- C3, amended: for every input with at least two entries, the result
length equals the number of index pairs (i < j) for which some rule's drug
list contains both case-folded names, counted with multiplicity (repeated
identical names are not deduplicated; each position pair counts on its
own).  The test is containment of each name, not exact equality of the
name pair with the rule's pair. -/
theorem analyze_length_eq_countMemberPairs (drugs : List Drug)
    (_h : 2 ≤ drugs.length) :
    (analyzeInteractions drugs).length = countMemberPairs mockInteractions drugs := by
  unfold analyzeInteractions analyzeWith countMemberPairs
  rw [length_filterMap_eq_length_filter]
  congr 1
  apply List.filter_congr
  intro p _
  rw [pairFinding_isSome_eq, findRule_isSome_eq_any]

/-- C3, witness: the length characterization applied to a four-entry list
containing the warfarin/aspirin pair twice over (aspirin repeated), where
three position pairs pass the membership test. -/
theorem analyze_length_eq_countMemberPairs_witness :
    2 ≤ ([warfarinEntry, aspirinEntry, lisinoprilEntry,
        { id := "6", name := "aspirin", dosage := "75mg", frequency := "daily" }] :
          List Drug).length ∧
      (analyzeInteractions [warfarinEntry, aspirinEntry, lisinoprilEntry,
        { id := "6", name := "aspirin", dosage := "75mg", frequency := "daily" }]).length =
        countMemberPairs mockInteractions [warfarinEntry, aspirinEntry, lisinoprilEntry,
          { id := "6", name := "aspirin", dosage := "75mg", frequency := "daily" }] :=
  ⟨by decide,
    analyze_length_eq_countMemberPairs [warfarinEntry, aspirinEntry, lisinoprilEntry,
      { id := "6", name := "aspirin", dosage := "75mg", frequency := "daily" }] (by decide)⟩

/-! ### Claim C4 -/

/-- C4: every emitted finding comes from a scanned position pair (i, j),
i < j; it carries the two entries' stored names verbatim (no normalization
applied for display), while the table test that produced it ran on the
case-folded names; severity, description and recommendation come from the
matched rule. -/
theorem analyze_finding_fields (rules : List InteractionRule) (drugs : List Drug)
    (f : Interaction) (hf : f ∈ analyzeWith rules drugs) :
    ∃ i j, i < j ∧ j < drugs.length ∧
      f.drug1 = nameAt drugs i ∧ f.drug2 = nameAt drugs j ∧
      ∃ r ∈ rules,
        r.drugs.contains (toLowerCase (nameAt drugs i)) = true ∧
          r.drugs.contains (toLowerCase (nameAt drugs j)) = true ∧
          f.severity = r.severity ∧ f.description = r.description ∧
          f.recommendation = r.recommendation := by
  unfold analyzeWith at hf
  rw [List.mem_filterMap] at hf
  obtain ⟨p, hp, hpf⟩ := hf
  obtain ⟨hij, hjn⟩ := mem_canonicalPairs.mp hp
  refine ⟨p.1, p.2, hij, hjn, ?_⟩
  rw [pairFinding_eq] at hpf
  cases hfind : findRule rules (toLowerCase (nameAt drugs p.1))
      (toLowerCase (nameAt drugs p.2)) with
  | none => rw [hfind] at hpf; exact absurd hpf (by simp)
  | some r =>
      rw [hfind] at hpf
      have hmem : r ∈ rules := by
        have := List.mem_of_find?_eq_some hfind
        exact this
      have htest := List.find?_some hfind
      rw [Bool.and_eq_true] at htest
      cases hpf
      exact ⟨rfl, rfl, r, hmem, htest.1, htest.2, rfl, rfl, rfl⟩

/-- C4, witness: with mixed-case stored names Warfarin and ASPIRIN the pair
still matches (case-folded test) and the finding keeps the stored casing. -/
theorem analyze_finding_fields_witness :
    ({ drug1 := "Warfarin", drug2 := "ASPIRIN", severity := Severity.high,
        description := "Increased risk of bleeding when used together",
        recommendation :=
          "Monitor INR levels closely and consider alternative anticoagulation" } :
          Interaction) ∈
        analyzeWith mockInteractions [warfarinMixedEntry, aspirinUpperEntry] ∧
      ∃ i j, i < j ∧ j < ([warfarinMixedEntry, aspirinUpperEntry] : List Drug).length ∧
        ({ drug1 := "Warfarin", drug2 := "ASPIRIN", severity := Severity.high,
            description := "Increased risk of bleeding when used together",
            recommendation :=
              "Monitor INR levels closely and consider alternative anticoagulation" } :
            Interaction).drug1 = nameAt [warfarinMixedEntry, aspirinUpperEntry] i ∧
        ({ drug1 := "Warfarin", drug2 := "ASPIRIN", severity := Severity.high,
            description := "Increased risk of bleeding when used together",
            recommendation :=
              "Monitor INR levels closely and consider alternative anticoagulation" } :
            Interaction).drug2 = nameAt [warfarinMixedEntry, aspirinUpperEntry] j ∧
        ∃ r ∈ mockInteractions,
          r.drugs.contains (toLowerCase (nameAt [warfarinMixedEntry, aspirinUpperEntry] i)) =
              true ∧
            r.drugs.contains (toLowerCase (nameAt [warfarinMixedEntry, aspirinUpperEntry] j)) =
                true ∧
            ({ drug1 := "Warfarin", drug2 := "ASPIRIN", severity := Severity.high,
                description := "Increased risk of bleeding when used together",
                recommendation :=
                  "Monitor INR levels closely and consider alternative anticoagulation" } :
                Interaction).severity = r.severity ∧
            ({ drug1 := "Warfarin", drug2 := "ASPIRIN", severity := Severity.high,
                description := "Increased risk of bleeding when used together",
                recommendation :=
                  "Monitor INR levels closely and consider alternative anticoagulation" } :
                Interaction).description = r.description ∧
            ({ drug1 := "Warfarin", drug2 := "ASPIRIN", severity := Severity.high,
                description := "Increased risk of bleeding when used together",
                recommendation :=
                  "Monitor INR levels closely and consider alternative anticoagulation" } :
                Interaction).recommendation = r.recommendation :=
  ⟨by decide,
    analyze_finding_fields mockInteractions [warfarinMixedEntry, aspirinUpperEntry] _ (by decide)⟩

/-! ### Claim C5 -/

/-- C5: the output is exactly the findings of the matching pairs taken in
canonical nested-loop order, and that pair enumeration is strictly
increasing in the lexicographic order (outer index ascending, inner index
ascending). -/
theorem analyze_output_in_loop_order (rules : List InteractionRule) (drugs : List Drug) :
    analyzeWith rules drugs =
      ((canonicalPairs drugs.length).filter fun p =>
        (pairFinding rules drugs p.1 p.2).isSome).filterMap
          (fun p => pairFinding rules drugs p.1 p.2) ∧
    (canonicalPairs drugs.length).Pairwise fun p q : Nat × Nat =>
      p.1 < q.1 ∨ (p.1 = q.1 ∧ p.2 < q.2) :=
  ⟨filterMap_eq_filter_isSome_filterMap _ _, canonicalPairs_pairwise _⟩

/-! ### Claim C6 -/

/-- C6: the table lookup is symmetric in the two names: for any table, the
rule found for (A, B) is the rule found for (B, A). -/
theorem findRule_symm (rules : List InteractionRule) (d1 d2 : String) :
    findRule rules d1 d2 = findRule rules d2 d1 := by
  unfold findRule
  have hcomm : (fun mock : InteractionRule =>
        mock.drugs.contains d1 && mock.drugs.contains d2) =
      fun mock : InteractionRule =>
        mock.drugs.contains d2 && mock.drugs.contains d1 := by
    funext mock
    exact Bool.and_comm _ _
  rw [hcomm]

/-! ### Claim C7 -/

/-- C7: with fewer than two entries the handler short-circuits: the state
(entries and previously stored findings) is left untouched and the signal
raised is the destructive Insufficient Data validation toast, not an
analysis result. -/
theorem analyzeStep_short_circuit (s : ComponentState) (h : s.drugs.length < 2) :
    analyzeStep s = (s, insufficientDataToast) ∧
      (analyzeStep s).1.interactions = s.interactions ∧
      insufficientDataToast.variant = ToastVariant.destructive := by
  refine ⟨?_, ?_, rfl⟩ <;> simp [analyzeStep, h]

/-- C7, witness: a one-entry state with stored findings is returned intact
together with the validation toast. -/
theorem analyzeStep_short_circuit_witness :
    (ComponentState.mk [warfarinEntry] [warfarinAspirinFinding]).drugs.length < 2 ∧
      (analyzeStep (ComponentState.mk [warfarinEntry] [warfarinAspirinFinding]) =
          (ComponentState.mk [warfarinEntry] [warfarinAspirinFinding],
            insufficientDataToast) ∧
        (analyzeStep (ComponentState.mk [warfarinEntry] [warfarinAspirinFinding])).1.interactions =
          (ComponentState.mk [warfarinEntry] [warfarinAspirinFinding]).interactions ∧
        insufficientDataToast.variant = ToastVariant.destructive) :=
  ⟨by decide,
    analyzeStep_short_circuit (ComponentState.mk [warfarinEntry] [warfarinAspirinFinding])
      (by decide)⟩

/-! ### Claim C8 -/

/-- C8: with at least two entries the handler is a pure function of the
entry list: it leaves the entries unchanged, stores exactly the matcher's
output for those entries, and running it a second time on the resulting
state reproduces the same state and the same toast. -/
theorem analyzeStep_pure_idempotent (s : ComponentState) (h : 2 ≤ s.drugs.length) :
    (analyzeStep s).1.drugs = s.drugs ∧
      (analyzeStep s).1.interactions = analyzeInteractions s.drugs ∧
      analyzeStep (analyzeStep s).1 = analyzeStep s := by
  have h2 : ¬ s.drugs.length < 2 := by omega
  refine ⟨?_, ?_, ?_⟩ <;> simp [analyzeStep, h2]

/-- C8, witness: two runs on a two-entry state coincide. -/
theorem analyzeStep_pure_idempotent_witness :
    2 ≤ (ComponentState.mk [warfarinEntry, aspirinEntry] []).drugs.length ∧
      ((analyzeStep (ComponentState.mk [warfarinEntry, aspirinEntry] [])).1.drugs =
          (ComponentState.mk [warfarinEntry, aspirinEntry] []).drugs ∧
        (analyzeStep (ComponentState.mk [warfarinEntry, aspirinEntry] [])).1.interactions =
          analyzeInteractions (ComponentState.mk [warfarinEntry, aspirinEntry] []).drugs ∧
        analyzeStep (analyzeStep (ComponentState.mk [warfarinEntry, aspirinEntry] [])).1 =
          analyzeStep (ComponentState.mk [warfarinEntry, aspirinEntry] [])) :=
  ⟨by decide,
    analyzeStep_pure_idempotent (ComponentState.mk [warfarinEntry, aspirinEntry] [])
      (by decide)⟩

/-! ### Claim C9 -/

/-- C9: when several rules of a table pass the membership test for a
position pair, the emitted finding carries the fields of the earliest
matching rule in table order, and that pair contributes exactly this one
finding: with every rule before `r` failing the test and `r` passing it,
the pair's lookup yields precisely the finding built from `r`. -/
theorem pairFinding_first_rule_wins (pre post : List InteractionRule)
    (r : InteractionRule) (drugs : List Drug) (i j : Nat)
    (hpre : ∀ r' ∈ pre,
      (r'.drugs.contains (toLowerCase (nameAt drugs i)) &&
        r'.drugs.contains (toLowerCase (nameAt drugs j))) = false)
    (hr : (r.drugs.contains (toLowerCase (nameAt drugs i)) &&
        r.drugs.contains (toLowerCase (nameAt drugs j))) = true) :
    pairFinding (pre ++ r :: post) drugs i j =
      some { drug1 := nameAt drugs i, drug2 := nameAt drugs j,
             severity := r.severity, description := r.description,
             recommendation := r.recommendation } := by
  have hfind : findRule (pre ++ r :: post) (toLowerCase (nameAt drugs i))
      (toLowerCase (nameAt drugs j)) = some r := by
    unfold findRule
    rw [List.find?_append]
    have hnone : pre.find? (fun mock =>
        mock.drugs.contains (toLowerCase (nameAt drugs i)) &&
          mock.drugs.contains (toLowerCase (nameAt drugs j))) = none := by
      rw [List.find?_eq_none]
      intro x hx hcontra
      have hx2 : (x.drugs.contains (toLowerCase (nameAt drugs i)) &&
          x.drugs.contains (toLowerCase (nameAt drugs j))) = true := hcontra
      rw [hpre x hx] at hx2
      exact Bool.false_ne_true hx2
    rw [hnone, Option.none_or]
    exact List.find?_cons_of_pos _ hr
  rw [pairFinding_eq, hfind]

/-- C9, witness: a table whose first entry does not match, followed by two
distinct rules for the warfarin and aspirin pair; the pair's finding is the
one of the earlier rule. -/
theorem pairFinding_first_rule_wins_witness :
    (∀ r' ∈ [lisinoprilPotassiumRule],
      (r'.drugs.contains
          (toLowerCase (nameAt [warfarinEntry, aspirinEntry] 0)) &&
        r'.drugs.contains
          (toLowerCase (nameAt [warfarinEntry, aspirinEntry] 1))) = false) ∧
      (warfarinAspirinRule.drugs.contains
          (toLowerCase (nameAt [warfarinEntry, aspirinEntry] 0)) &&
        warfarinAspirinRule.drugs.contains
          (toLowerCase (nameAt [warfarinEntry, aspirinEntry] 1))) = true ∧
      pairFinding ([lisinoprilPotassiumRule] ++ warfarinAspirinRule :: [warfarinAspirinRuleAlt])
          [warfarinEntry, aspirinEntry] 0 1 =
        some { drug1 := nameAt [warfarinEntry, aspirinEntry] 0,
               drug2 := nameAt [warfarinEntry, aspirinEntry] 1,
               severity := warfarinAspirinRule.severity,
               description := warfarinAspirinRule.description,
               recommendation := warfarinAspirinRule.recommendation } :=
  ⟨by decide, by decide,
    pairFinding_first_rule_wins [lisinoprilPotassiumRule] [warfarinAspirinRuleAlt]
      warfarinAspirinRule [warfarinEntry, aspirinEntry] 0 1 (by decide) (by decide)⟩

/-! ### Claim C10 -/

/-- C10: removal by id keeps exactly the entries whose id differs from the
given one, in their original relative order (the remaining list is a
sublist of the original), and unconditionally resets the stored findings
to the empty list. -/
theorem removeDrug_removes_exactly (id : String) (s : ComponentState) :
    (removeDrug id s).drugs.Sublist s.drugs ∧
      (∀ d ∈ (removeDrug id s).drugs, d.id ≠ id ∧ d ∈ s.drugs) ∧
      (∀ d ∈ s.drugs, d.id ≠ id → d ∈ (removeDrug id s).drugs) ∧
      (removeDrug id s).interactions = [] := by
  refine ⟨List.filter_sublist _, ?_, ?_, rfl⟩
  · intro d hd
    simp only [removeDrug, List.mem_filter, bne_iff_ne] at hd
    exact ⟨hd.2, hd.1⟩
  · intro d hd hne
    simp only [removeDrug, List.mem_filter, bne_iff_ne]
    exact ⟨hd, hne⟩

/-- C10, witness: removing id 2 from a three-entry state with stored
findings. -/
theorem removeDrug_removes_exactly_witness :
    (removeDrug "2"
        (ComponentState.mk [warfarinEntry, aspirinEntry, lisinoprilEntry]
          [warfarinAspirinFinding])).drugs.Sublist
        (ComponentState.mk [warfarinEntry, aspirinEntry, lisinoprilEntry]
          [warfarinAspirinFinding]).drugs ∧
      (∀ d ∈ (removeDrug "2"
          (ComponentState.mk [warfarinEntry, aspirinEntry, lisinoprilEntry]
            [warfarinAspirinFinding])).drugs, d.id ≠ "2" ∧
        d ∈ (ComponentState.mk [warfarinEntry, aspirinEntry, lisinoprilEntry]
          [warfarinAspirinFinding]).drugs) ∧
      (∀ d ∈ (ComponentState.mk [warfarinEntry, aspirinEntry, lisinoprilEntry]
          [warfarinAspirinFinding]).drugs, d.id ≠ "2" →
        d ∈ (removeDrug "2"
          (ComponentState.mk [warfarinEntry, aspirinEntry, lisinoprilEntry]
            [warfarinAspirinFinding])).drugs) ∧
      (removeDrug "2"
        (ComponentState.mk [warfarinEntry, aspirinEntry, lisinoprilEntry]
          [warfarinAspirinFinding])).interactions = [] :=
  removeDrug_removes_exactly "2"
    (ComponentState.mk [warfarinEntry, aspirinEntry, lisinoprilEntry]
      [warfarinAspirinFinding])

end PrescriptionVerifier
